import Mathlib

/-!
Shallow embedding of the order/payment core of the e-commerce backend
(src/app/models and src/app/services), together with theorems checking the
specification's claims about it.

Conventions of the embedding:
* SQLAlchemy rows become Lean structures; the database session becomes an
  explicit `Session` state (`work` = in-memory session state including
  uncommitted mutations, `comm` = last committed state).  `db.commit()` is
  `Session.commit`; an exception that escapes a request handler rolls back
  the uncommitted part, so a top-level run returns `comm`.
* `Numeric(10,2)` money is represented exactly as an integer number of
  cents; `Integer` stock is `Int`.
* Calls out to provider adapters (network I/O) are modelled by passing the
  adapter's returned dictionary (`ProviderResult`) as an explicit argument;
  its optional fields mirror Python's `dict.get`.
-/

/-- `ProductStatus` enum from src/app/models/product.py. -/
inductive ProductStatus where
  | active
  | inactive
deriving DecidableEq, Repr

/-- `Product` row from src/app/models/product.py (fields the core uses).
`price` is in cents. -/
structure Product where
  id : Nat
  price : Int
  stock : Int
  status : ProductStatus
deriving DecidableEq, Repr

/-- `Product.reduce_stock` from src/app/models/product.py lines 37-42:
decrement only when `stock >= quantity`, returning whether it happened. -/
def Product.reduce_stock (p : Product) (quantity : Int) : Product × Bool :=
  if p.stock ≥ quantity then
    ({ p with stock := p.stock - quantity }, true)
  else
    (p, false)

/-- `Product.is_in_stock` from src/app/models/product.py lines 44-46. -/
def Product.is_in_stock (p : Product) (quantity : Int) : Bool :=
  decide (p.stock ≥ quantity) && p.status == ProductStatus.active

/-- `OrderStatus` enum from src/app/models/order.py. -/
inductive OrderStatus where
  | pending
  | paid
  | canceled
deriving DecidableEq, Repr

/-- `Order` row from src/app/models/order.py (fields the core uses). -/
structure Order where
  id : Nat
  user_id : Int
  total_amount : Int
  status : OrderStatus
deriving DecidableEq, Repr

/-- `OrderItem` row from src/app/models/order_item.py. -/
structure OrderItem where
  order_id : Nat
  product_id : Nat
  quantity : Int
  price : Int
  subtotal : Int
deriving DecidableEq, Repr

/-- `OrderItem.calculate_subtotal` from src/app/models/order_item.py
lines 27-30: `subtotal = price * quantity`. -/
def OrderItem.calculate_subtotal (i : OrderItem) : OrderItem :=
  { i with subtotal := i.price * i.quantity }

/-- `PaymentStatus` enum from src/app/models/payment.py. -/
inductive PaymentStatus where
  | pending
  | success
  | failed
deriving DecidableEq, Repr

/-- `Payment` row from src/app/models/payment.py.  `raw_response` is the
opaque provider blob, modelled as an optional string. -/
structure Payment where
  id : Nat
  order_id : Nat
  provider : String
  transaction_id : String
  status : PaymentStatus
  raw_response : Option String
deriving DecidableEq, Repr

/-- `Payment.mark_as_success` from src/app/models/payment.py lines 41-43. -/
def Payment.mark_as_success (p : Payment) : Payment :=
  { p with status := PaymentStatus.success }

/-- `Payment.mark_as_failed` from src/app/models/payment.py lines 45-47. -/
def Payment.mark_as_failed (p : Payment) : Payment :=
  { p with status := PaymentStatus.failed }

/-- The relational store: the tables the order/payment core touches, plus
id counters standing for the autoincrement primary keys. -/
structure DB where
  products : List Product
  orders : List Order
  order_items : List OrderItem
  payments : List Payment
  next_order_id : Nat
  next_payment_id : Nat
deriving DecidableEq, Repr

/-- `fastapi.HTTPException`: status code and detail string. -/
structure HTTPError where
  status_code : Nat
  detail : String
deriving DecidableEq, Repr

/-- A SQLAlchemy session: `work` is what queries inside the request see
(pending mutations included), `comm` is the last committed state.  An
exception escaping the request discards `work`; only `comm` persists. -/
structure Session where
  work : DB
  comm : DB
deriving DecidableEq, Repr

/-- `db.commit()`: pending mutations become durable. -/
def Session.commit (s : Session) : Session :=
  ⟨s.work, s.work⟩

/-- A fresh session on top of a committed database state. -/
def Session.start (db : DB) : Session :=
  ⟨db, db⟩

/-- Run one request: on a raised `HTTPError` the session's uncommitted
mutations are rolled back, so the persisted result is always `comm`. -/
def runRequest {A : Type} (db : DB) (op : Session → Except HTTPError A × Session) :
    Except HTTPError A × DB :=
  let r := op (Session.start db)
  (r.1, r.2.comm)

/-- Items belonging to one order (`self.order_items` relationship). -/
def DB.itemsOf (db : DB) (oid : Nat) : List OrderItem :=
  db.order_items.filter (fun i => i.order_id == oid)

/-- Apply `Product.reduce_stock` to the product row with the given id,
keeping the old row when the check fails (the boolean is dropped exactly
as `Order.mark_as_paid` drops it). -/
def reduceProductStock (ps : List Product) (pid : Nat) (q : Int) : List Product :=
  ps.map (fun p => if p.id == pid then (p.reduce_stock q).1 else p)

/-- `Order.mark_as_paid` from src/app/models/order.py lines 41-45: set the
status to PAID and call `reduce_stock` for every item, ignoring failures. -/
def Order.mark_as_paid (db : DB) (o : Order) : DB :=
  { db with
    orders := db.orders.map (fun o2 =>
      if o2.id == o.id then { o2 with status := OrderStatus.paid } else o2),
    products := (db.itemsOf o.id).foldl
      (fun ps i => reduceProductStock ps i.product_id i.quantity) db.products }

/-- `Order.cancel` from src/app/models/order.py lines 47-52. -/
def Order.cancel (db : DB) (o : Order) : DB × Bool :=
  if o.status == OrderStatus.pending then
    ({ db with orders := db.orders.map (fun o2 =>
        if o2.id == o.id then { o2 with status := OrderStatus.canceled } else o2) },
     true)
  else
    (db, false)

/-- Python truthiness of the optional `user_id: int = None` argument:
both `None` and `0` are falsy. -/
def intTruthy : Option Int → Bool
  | none => false
  | some v => v != 0

/-- `OrderService.get_order_by_id` from src/app/services/order_service.py
lines 96-123: filter by id, additionally by owner only when `user_id` is
truthy, take the first row, else 404. -/
def OrderService.get_order_by_id (db : DB) (order_id : Nat) (user_id : Option Int) :
    Except HTTPError Order :=
  let q := db.orders.filter (fun o => o.id == order_id)
  let q := if intTruthy user_id then
      q.filter (fun o => some o.user_id == user_id)
    else q
  match q.head? with
  | some o => Except.ok o
  | none => Except.error ⟨404, "Order not found"⟩

/-- `OrderService.mark_order_as_paid` from src/app/services/order_service.py
lines 178-204: load the order (no owner filter), require PENDING, then
`order.mark_as_paid()` and commit. -/
def OrderService.mark_order_as_paid (s : Session) (order_id : Nat) :
    Except HTTPError Order × Session :=
  match OrderService.get_order_by_id s.work order_id none with
  | Except.error e => (Except.error e, s)
  | Except.ok order =>
    if order.status != OrderStatus.pending then
      (Except.error ⟨400, "Order is not in pending status"⟩, s)
    else
      let s2 := Session.commit ⟨Order.mark_as_paid s.work order, s.comm⟩
      (Except.ok { order with status := OrderStatus.paid }, s2)

/-- One line of the order-creation request body. -/
structure OrderItemCreate where
  product_id : Nat
  quantity : Int
deriving DecidableEq, Repr

/-- One entry of `order_items_data` in `OrderService.create_order`:
the product reference, quantity, and the price snapshotted now. -/
structure ItemData where
  product_id : Nat
  quantity : Int
  price : Int
deriving DecidableEq, Repr

/-- The validation loop of `OrderService.create_order`
(src/app/services/order_service.py lines 38-59): for each line load the
product (404 when missing), check `is_in_stock` (400 when not), and
snapshot the price. -/
def validateItems (db : DB) : List OrderItemCreate → Except HTTPError (List ItemData)
  | [] => Except.ok []
  | item :: rest =>
    match db.products.find? (fun p => p.id == item.product_id) with
    | none => Except.error ⟨404, "Product not found"⟩
    | some product =>
      if !product.is_in_stock item.quantity then
        Except.error ⟨400, "Insufficient stock for product"⟩
      else
        match validateItems db rest with
        | Except.error e => Except.error e
        | Except.ok ds =>
          Except.ok (⟨item.product_id, item.quantity, product.price⟩ :: ds)

/-- The item-building loop of `OrderService.create_order`
(src/app/services/order_service.py lines 72-86): create each `OrderItem`
with `calculate_subtotal`, accumulating the total. -/
def buildItems (oid : Nat) : List ItemData → List OrderItem × Int
  | [] => ([], 0)
  | d :: rest =>
    let item := OrderItem.calculate_subtotal ⟨oid, d.product_id, d.quantity, d.price, 0⟩
    let r := buildItems oid rest
    (item :: r.1, item.subtotal + r.2)

/-- `OrderService.create_order` from src/app/services/order_service.py
lines 21-94: validate every line first; only then persist the order and
all items and commit, with `total_amount` the sum of the subtotals. -/
def OrderService.create_order (s : Session) (user_id : Int)
    (items : List OrderItemCreate) : Except HTTPError Order × Session :=
  match validateItems s.work items with
  | Except.error e => (Except.error e, s)
  | Except.ok datas =>
    let oid := s.work.next_order_id
    let built := buildItems oid datas
    let order : Order := ⟨oid, user_id, built.2, OrderStatus.pending⟩
    let work := { s.work with
      orders := s.work.orders ++ [order],
      order_items := s.work.order_items ++ built.1,
      next_order_id := oid + 1 }
    (Except.ok order, Session.commit ⟨work, s.comm⟩)

/-- The provider registry populated at import time in
src/app/payment_providers/__init__.py lines 47-49. -/
def registeredProviders : List String := ["stripe", "bkash"]

/-- The dictionary a provider adapter returns (create/confirm/query calls
and normalized webhook results share this shape); optional fields mirror
Python's `dict.get` returning `None` when the key is absent. -/
structure ProviderResult where
  success : Bool
  transaction_id : Option String
  status : Option String
  error : Option String
  raw_response : Option String
deriving DecidableEq, Repr

/-- Update the payment row with the given id in place. -/
def DB.updatePayment (db : DB) (pid : Nat) (f : Payment → Payment) : DB :=
  { db with payments := db.payments.map (fun p => if p.id == pid then f p else p) }

/-- `PaymentService.create_payment` from
src/app/services/payment_service.py lines 21-90.  The adapter's reply to
`provider.create_payment` is the explicit `result` argument. -/
def PaymentService.create_payment (s : Session) (order_id : Nat)
    (provider_name : String) (user_id : Int) (result : ProviderResult) :
    Except HTTPError Payment × Session :=
  match OrderService.get_order_by_id s.work order_id (some user_id) with
  | Except.error e => (Except.error e, s)
  | Except.ok order =>
    if order.status != OrderStatus.pending then
      (Except.error ⟨400, "Order is not in pending status"⟩, s)
    else if !(registeredProviders.contains provider_name) then
      (Except.error ⟨400, "Payment provider not found"⟩, s)
    else if !result.success then
      (Except.error ⟨400, result.error.getD "Payment creation failed"⟩, s)
    else
      match result.transaction_id with
      | none => (Except.error ⟨500, "KeyError"⟩, s)
      | some t =>
        let payment : Payment :=
          ⟨s.work.next_payment_id, order_id, provider_name, t,
           PaymentStatus.pending, result.raw_response⟩
        let work := { s.work with
          payments := s.work.payments ++ [payment],
          next_payment_id := s.work.next_payment_id + 1 }
        (Except.ok payment, Session.commit ⟨work, s.comm⟩)

/-- `PaymentService.confirm_payment` from
src/app/services/payment_service.py lines 92-147.  The adapter's reply is
the explicit `result` argument; note the status vocabulary checked here is
Stripe's (`"succeeded"`, `"requires_payment_method"`, ...). -/
def PaymentService.confirm_payment (s : Session) (payment_id : Nat)
    (result : ProviderResult) : Except HTTPError Payment × Session :=
  match s.work.payments.find? (fun p => p.id == payment_id) with
  | none => (Except.error ⟨404, "Payment not found"⟩, s)
  | some payment =>
    if !(registeredProviders.contains payment.provider) then
      (Except.error ⟨500, "ValueError"⟩, s)
    else if !result.success then
      let s2 := Session.commit ⟨s.work.updatePayment payment_id Payment.mark_as_failed, s.comm⟩
      (Except.error ⟨400, result.error.getD "Payment confirmation failed"⟩, s2)
    else if result.status == some "succeeded" then
      let work := s.work.updatePayment payment_id (fun p =>
        { p.mark_as_success with raw_response := result.raw_response })
      match OrderService.mark_order_as_paid ⟨work, s.comm⟩ payment.order_id with
      | (Except.error e, s1) => (Except.error e, s1)
      | (Except.ok _, s1) =>
        (Except.ok { payment.mark_as_success with raw_response := result.raw_response },
         Session.commit s1)
    else if result.status == some "requires_payment_method" ||
            result.status == some "requires_action" ||
            result.status == some "processing" then
      (Except.ok payment, Session.commit s)
    else
      let s2 := Session.commit ⟨s.work.updatePayment payment_id Payment.mark_as_failed, s.comm⟩
      (Except.ok payment.mark_as_failed, s2)

/-- `PaymentService.query_payment` from
src/app/services/payment_service.py lines 149-186: read-through refresh
that reconciles the stored row toward whatever terminal status the
adapter reports. -/
def PaymentService.query_payment (s : Session) (payment_id : Nat)
    (result : ProviderResult) : Except HTTPError Payment × Session :=
  match s.work.payments.find? (fun p => p.id == payment_id) with
  | none => (Except.error ⟨404, "Payment not found"⟩, s)
  | some payment =>
    if !(registeredProviders.contains payment.provider) then
      (Except.error ⟨500, "ValueError"⟩, s)
    else if result.status == some "succeeded" &&
            payment.status != PaymentStatus.success then
      let work := s.work.updatePayment payment_id (fun p =>
        { p.mark_as_success with raw_response := result.raw_response })
      (Except.ok { payment.mark_as_success with raw_response := result.raw_response },
       Session.commit ⟨work, s.comm⟩)
    else if result.status == some "failed" &&
            payment.status != PaymentStatus.failed then
      let work := s.work.updatePayment payment_id (fun p =>
        { p.mark_as_failed with raw_response := result.raw_response })
      (Except.ok { payment.mark_as_failed with raw_response := result.raw_response },
       Session.commit ⟨work, s.comm⟩)
    else
      (Except.ok payment, s)

/-- `PaymentService.handle_webhook` from
src/app/services/payment_service.py lines 188-235.  The adapter's
normalized webhook result is the explicit `result` argument; note there is
no check of the payment's current status before applying a transition. -/
def PaymentService.handle_webhook (s : Session) (provider_name : String)
    (result : ProviderResult) : Except HTTPError ProviderResult × Session :=
  if !(registeredProviders.contains provider_name) then
    (Except.error ⟨400, "Payment provider not found"⟩, s)
  else if !result.success then
    (Except.ok result, s)
  else
    match result.transaction_id with
    | none => (Except.ok result, s)
    | some t =>
      if t == "" then (Except.ok result, s)
      else
        match s.work.payments.find? (fun p => p.transaction_id == t) with
        | none => (Except.ok result, s)
        | some payment =>
          if result.status == some "success" then
            let work := s.work.updatePayment payment.id (fun p =>
              { p.mark_as_success with raw_response := result.raw_response })
            match OrderService.mark_order_as_paid ⟨work, s.comm⟩ payment.order_id with
            | (Except.error e, s1) => (Except.error e, s1)
            | (Except.ok _, s1) => (Except.ok result, Session.commit s1)
          else if result.status == some "failed" then
            let work := s.work.updatePayment payment.id (fun p =>
              { p.mark_as_failed with raw_response := result.raw_response })
            (Except.ok result, Session.commit ⟨work, s.comm⟩)
          else
            (Except.ok result, Session.commit s)

/-- `BkashProvider.confirm_payment` in mock mode
(src/app/payment_providers/bkash_provider.py lines 60-84): always reports
an explicit success with normalized status string `"success"`.  The random
`trxID` inside the raw blob is abstracted into the opaque raw string. -/
def BkashProvider.confirm_payment (transaction_id : String) : ProviderResult :=
  { success := true
    transaction_id := some transaction_id
    status := some "success"
    error := none
    raw_response := some "bkash_confirm_raw" }

/-- `StripeProvider.handle_webhook` normalization
(src/app/payment_providers/stripe_provider.py lines 110-144): maps the two
recognized event types to `success`/`failed`, everything else to an
"Event received but not processed" success result with no transaction id. -/
def StripeProvider.handle_webhook (event_type : String) (intent_id : Option String)
    (payload : String) : ProviderResult :=
  if event_type == "payment_intent.succeeded" then
    { success := true, transaction_id := intent_id, status := some "success",
      error := none, raw_response := some payload }
  else if event_type == "payment_intent.payment_failed" then
    { success := true, transaction_id := intent_id, status := some "failed",
      error := none, raw_response := some payload }
  else
    { success := true, transaction_id := none, status := none,
      error := none, raw_response := none }

/-- Top-level run of `OrderService.create_order` over a committed state. -/
def createOrderRun (db : DB) (user_id : Int) (items : List OrderItemCreate) :
    Except HTTPError Order × DB :=
  runRequest db (fun s => OrderService.create_order s user_id items)

/-- Top-level run of `OrderService.mark_order_as_paid`. -/
def markOrderAsPaidRun (db : DB) (order_id : Nat) : Except HTTPError Order × DB :=
  runRequest db (fun s => OrderService.mark_order_as_paid s order_id)

/-- Top-level run of `PaymentService.create_payment`. -/
def createPaymentRun (db : DB) (order_id : Nat) (provider_name : String)
    (user_id : Int) (result : ProviderResult) : Except HTTPError Payment × DB :=
  runRequest db (fun s => PaymentService.create_payment s order_id provider_name user_id result)

/-- Top-level run of `PaymentService.confirm_payment`. -/
def confirmPaymentRun (db : DB) (payment_id : Nat) (result : ProviderResult) :
    Except HTTPError Payment × DB :=
  runRequest db (fun s => PaymentService.confirm_payment s payment_id result)

/-- Top-level run of `PaymentService.query_payment`. -/
def queryPaymentRun (db : DB) (payment_id : Nat) (result : ProviderResult) :
    Except HTTPError Payment × DB :=
  runRequest db (fun s => PaymentService.query_payment s payment_id result)

/-- Top-level run of `PaymentService.handle_webhook`. -/
def handleWebhookRun (db : DB) (provider_name : String) (result : ProviderResult) :
    Except HTTPError ProviderResult × DB :=
  runRequest db (fun s => PaymentService.handle_webhook s provider_name result)

/-- Status of the payment row with the given id, if present. -/
def paymentStatusIn (db : DB) (pid : Nat) : Option PaymentStatus :=
  (db.payments.find? (fun p => p.id == pid)).map Payment.status

/-- Status of the order row with the given id, if present. -/
def orderStatusIn (db : DB) (oid : Nat) : Option OrderStatus :=
  (db.orders.find? (fun o => o.id == oid)).map Order.status

/-- Stock of the product row with the given id, if present. -/
def productStockIn (db : DB) (pid : Nat) : Option Int :=
  (db.products.find? (fun p => p.id == pid)).map Product.stock

/-! ## Helper instances and lemmas -/

instance instDecEqExcept {ε α : Type} [DecidableEq ε] [DecidableEq α] :
    DecidableEq (Except ε α) := fun x y =>
  match x, y with
  | Except.ok a, Except.ok b =>
    if h : a = b then Decidable.isTrue (by rw [h])
    else Decidable.isFalse (fun hh => h (Except.ok.inj hh))
  | Except.error a, Except.error b =>
    if h : a = b then Decidable.isTrue (by rw [h])
    else Decidable.isFalse (fun hh => h (Except.error.inj hh))
  | Except.ok _, Except.error _ => Decidable.isFalse (fun hh => Except.noConfusion hh)
  | Except.error _, Except.ok _ => Decidable.isFalse (fun hh => Except.noConfusion hh)

theorem filter_head?_eq_find? {α : Type} (p : α → Bool) (l : List α) :
    (l.filter p).head? = l.find? p := by
  induction l with
  | nil => rfl
  | cons a l ih =>
    cases h : p a <;> simp [List.filter_cons, List.find?_cons, h, ih]

/-! ## Concrete scenarios used by counterexamples and witnesses -/

/-- One active product, price $10.00, stock 5. -/
def prodW1 : Product := ⟨1, 1000, 5, ProductStatus.active⟩

/-- A pending order of 3 units of that product. -/
def ordW1 : Order := ⟨1, 1, 3000, OrderStatus.pending⟩

def itemW1 : OrderItem := ⟨1, 1, 3, 1000, 3000⟩

/-- A pending bkash payment for that order, transaction `T1`. -/
def payW1 : Payment := ⟨1, 1, "bkash", "T1", PaymentStatus.pending, none⟩

def dbW1 : DB := ⟨[prodW1], [ordW1], [itemW1], [payW1], 2, 2⟩

/-- A normalized success webhook for transaction `T1`. -/
def whSuccessT1 : ProviderResult :=
  { success := true, transaction_id := some "T1", status := some "success",
    error := none, raw_response := some "r" }

/-- Committed state after the first delivery of the success webhook. -/
def dbW1After : DB := (handleWebhookRun dbW1 "bkash" whSuccessT1).2

/-- Order pending, a single item of quantity 2, but only 1 unit in stock. -/
def dbShort : DB :=
  ⟨[⟨1, 1000, 1, ProductStatus.active⟩], [⟨1, 1, 2000, OrderStatus.pending⟩],
   [⟨1, 1, 2, 1000, 2000⟩], [], 2, 1⟩

/-- A pending bkash payment whose order is still pending, stock 5. -/
def dbBkash : DB :=
  ⟨[⟨1, 1000, 5, ProductStatus.active⟩], [⟨1, 1, 3000, OrderStatus.pending⟩],
   [⟨1, 1, 3, 1000, 3000⟩], [⟨1, 1, "bkash", "B1", PaymentStatus.pending, none⟩], 2, 2⟩

/-- A FAILED stripe payment on a paid order. -/
def dbFailedPay : DB :=
  ⟨[], [⟨1, 1, 3000, OrderStatus.paid⟩], [],
   [⟨1, 1, "stripe", "S1", PaymentStatus.failed, none⟩], 2, 2⟩

/-- Adapter reply reporting Stripe status `succeeded`. -/
def presSucceeded : ProviderResult :=
  { success := true, transaction_id := some "S1", status := some "succeeded",
    error := none, raw_response := some "q" }

/-! ## C3 -/

/-- C3: `mark_paid` is NOT atomic with the stock decrement.  On an order in
PENDING status whose single item needs 2 units while only 1 is in stock,
`OrderService.mark_order_as_paid` returns success, commits the order as
PAID, and leaves the stock not decremented — the operation neither fails
nor rolls the status change back, contradicting the claim (the spec itself
flags that the source does not guarantee this). -/
theorem C3_mark_paid_not_atomic :
    (markOrderAsPaidRun dbShort 1).1 = Except.ok ⟨1, 1, 2000, OrderStatus.paid⟩ ∧
    orderStatusIn (markOrderAsPaidRun dbShort 1).2 1 = some OrderStatus.paid ∧
    productStockIn (markOrderAsPaidRun dbShort 1).2 1 = some 1 := by
  refine ⟨?_, ?_, ?_⟩ <;> decide

/-! ## C6 -/

/-- C6: the success mapping in `confirm_payment` is not provider-agnostic.
The bkash adapter's `confirm_payment` reports the explicit success status
`"success"`, but the orchestrator only recognizes Stripe's `"succeeded"`,
so the PENDING bkash payment is marked FAILED, the order stays PENDING and
no stock is decremented — contradicting the claim that an explicit
adapter success maps to Payment SUCCESS plus `mark_paid`. -/
theorem C6_bkash_success_marked_failed :
    (BkashProvider.confirm_payment "B1").success = true ∧
    (BkashProvider.confirm_payment "B1").status = some "success" ∧
    paymentStatusIn (confirmPaymentRun dbBkash 1 (BkashProvider.confirm_payment "B1")).2 1 =
      some PaymentStatus.failed ∧
    orderStatusIn (confirmPaymentRun dbBkash 1 (BkashProvider.confirm_payment "B1")).2 1 =
      some OrderStatus.pending ∧
    productStockIn (confirmPaymentRun dbBkash 1 (BkashProvider.confirm_payment "B1")).2 1 =
      some 5 := by
  refine ⟨?_, ?_, ?_, ?_, ?_⟩ <;> decide

/-! ## C2 counterexample -/

/-- C2 counterexample: a terminal Payment IS silently overwritten.  On a
payment whose stored status is FAILED, `query_payment` with an adapter
snapshot reporting `succeeded` returns OK (no rejection) and commits the
payment as SUCCESS — a different terminal status was applied to an
already-terminal Payment. -/
theorem C2_query_overwrites_terminal :
    paymentStatusIn dbFailedPay 1 = some PaymentStatus.failed ∧
    (queryPaymentRun dbFailedPay 1 presSucceeded).1 =
      Except.ok ⟨1, 1, "stripe", "S1", PaymentStatus.success, some "q"⟩ ∧
    paymentStatusIn (queryPaymentRun dbFailedPay 1 presSucceeded).2 1 =
      some PaymentStatus.success := by
  refine ⟨?_, ?_, ?_⟩ <;> decide

/-! ## C1 counterexample -/

/-- C1 counterexample: webhook delivery is not idempotent as claimed.  The
first delivery of the terminal success webhook for transaction `T1`
succeeds and decrements stock from 5 to 2; delivering the identical
payload a second time raises HTTP 400 ("Order is not in pending status")
instead of succeeding — the duplicate delivery fails, contradicting the
claim's "does not fail". -/
theorem C1_duplicate_webhook_fails :
    (handleWebhookRun dbW1 "bkash" whSuccessT1).1 = Except.ok whSuccessT1 ∧
    productStockIn dbW1After 1 = some 2 ∧
    (handleWebhookRun dbW1After "bkash" whSuccessT1).1 =
      Except.error ⟨400, "Order is not in pending status"⟩ := by
  refine ⟨?_, ?_, ?_⟩ <;> decide

/-- C9: a webhook whose normalized transaction id matches no stored
Payment is ignored without error: `handle_webhook` returns the provider's
success result unchanged and the committed database state is untouched. -/
theorem C9_webhook_unknown_transaction_ignored (db : DB) (pname t : String)
    (w : ProviderResult)
    (hreg : registeredProviders.contains pname = true)
    (hs : w.success = true)
    (ht : w.transaction_id = some t)
    (hnf : ∀ p ∈ db.payments, p.transaction_id ≠ t) :
    handleWebhookRun db pname w = (Except.ok w, db) := by
  have hfind : db.payments.find? (fun p => p.transaction_id == t) = none := by
    rw [List.find?_eq_none]
    intro p hp
    simpa using hnf p hp
  have hmem : pname ∈ registeredProviders := by simpa using hreg
  unfold handleWebhookRun runRequest PaymentService.handle_webhook
  cases hte : t == "" with
  | true => simp [hreg, hmem, hs, ht, hte, Session.start]
  | false => simp [hreg, hmem, hs, ht, hte, hfind, Session.start]

/-- Witness for C9 at a concrete state: the store holds one payment with
transaction `T1`; a success webhook for the unknown transaction `ZZZ` is
returned as-is and the state does not change. -/
theorem C9_webhook_unknown_transaction_ignored_witness :
    handleWebhookRun dbW1 "stripe"
        (StripeProvider.handle_webhook "payment_intent.succeeded" (some "ZZZ") "raw") =
      (Except.ok (StripeProvider.handle_webhook "payment_intent.succeeded" (some "ZZZ") "raw"),
       dbW1) :=
  C9_webhook_unknown_transaction_ignored dbW1 "stripe" "ZZZ" _
    (by decide) (by decide) (by decide) (by decide)

/-- C10: `get_order_by_id` applies the ownership filter only for truthy
owner ids.  With owner id `0` (or `None`) the first order with the
requested id is returned regardless of its owner; with a non-zero owner id
that matches no owner of the requested order, the result is 404
"Order not found". -/
theorem C10_owner_filter_truthiness (db : DB) (oid : Nat) :
    (∀ o, db.orders.find? (fun o2 => o2.id == oid) = some o →
      OrderService.get_order_by_id db oid (some 0) = Except.ok o ∧
      OrderService.get_order_by_id db oid none = Except.ok o) ∧
    (∀ v : Int, v ≠ 0 → (∃ o ∈ db.orders, o.id = oid) →
      (∀ o ∈ db.orders, o.id = oid → o.user_id ≠ v) →
      OrderService.get_order_by_id db oid (some v) =
        Except.error ⟨404, "Order not found"⟩) := by
  constructor
  · intro o hfo
    constructor <;>
    · unfold OrderService.get_order_by_id
      simp [intTruthy, filter_head?_eq_find?, hfo]
  · intro v hv _ hmis
    have htr : intTruthy (some v) = true := by simp [intTruthy, hv]
    have hfind : (db.orders.filter (fun o => o.id == oid)).find?
        (fun o => some o.user_id == some v) = none := by
      rw [List.find?_eq_none]
      intro a ha
      have h1 : a.id = oid := by simpa using (List.mem_filter.mp ha).2
      have h2 := hmis a (List.mem_filter.mp ha).1 h1
      simp [h2]
    unfold OrderService.get_order_by_id
    simp only [htr, eq_self_iff_true, if_true, filter_head?_eq_find?, hfind]

/-- Witness for C10 at a concrete state: the single order with id 1 is
owned by user 5; owner id 0 returns it anyway, and owner id 7 gets 404. -/
theorem C10_owner_filter_truthiness_witness :
    OrderService.get_order_by_id dbW1 1 (some 0) = Except.ok ordW1 ∧
    OrderService.get_order_by_id dbW1 1 (some 7) =
      Except.error ⟨404, "Order not found"⟩ :=
  ⟨((C10_owner_filter_truthiness dbW1 1).1 ordW1 (by decide)).1,
   (C10_owner_filter_truthiness dbW1 1).2 7 (by decide)
     ⟨ordW1, by decide, by decide⟩ (by decide)⟩

/-- The failure condition of one requested line in `create_order`: the
referenced product is absent, or it fails the `is_in_stock` availability
check (inactive status or stock below the requested quantity). -/
def lineFails (db : DB) (r : OrderItemCreate) : Bool :=
  match db.products.find? (fun p => p.id == r.product_id) with
  | none => true
  | some p => !p.is_in_stock r.quantity

theorem validateItems_error_of_lineFails (db : DB) (reqs : List OrderItemCreate)
    (h : ∃ r ∈ reqs, lineFails db r = true) :
    ∃ e, validateItems db reqs = Except.error e := by
  induction reqs with
  | nil => simp at h
  | cons a rest ih =>
    obtain ⟨r, hr, hfail⟩ := h
    unfold validateItems
    cases hf : db.products.find? (fun p => p.id == a.product_id) with
    | none => exact ⟨_, rfl⟩
    | some p =>
      cases hstock : p.is_in_stock a.quantity with
      | false =>
        exact ⟨⟨400, "Insufficient stock for product"⟩, by simp [hstock]⟩
      | true =>
        have hrest : r ∈ rest := by
          rcases List.mem_cons.mp hr with h1 | h1
          · subst h1
            unfold lineFails at hfail
            rw [hf] at hfail
            simp [hstock] at hfail
          · exact h1
        obtain ⟨e, he⟩ := ih ⟨r, hrest, hfail⟩
        refine ⟨e, ?_⟩
        simp [hstock, he]

/-- C8: `create_order` fails atomically.  If any requested line references
a missing product or fails the availability check, the whole call returns
an error and the committed database state is exactly the original one —
no Order row and no OrderItem rows are persisted. -/
theorem C8_create_order_failure_atomic (db : DB) (uid : Int)
    (reqs : List OrderItemCreate)
    (h : ∃ r ∈ reqs, lineFails db r = true) :
    ∃ e, createOrderRun db uid reqs = (Except.error e, db) := by
  obtain ⟨e, he⟩ := validateItems_error_of_lineFails db reqs h
  refine ⟨e, ?_⟩
  unfold createOrderRun runRequest OrderService.create_order
  simp [Session.start, he]

/-- Witness for C8: requesting 99 units of the product with stock 5 fails
and leaves the store unchanged. -/
theorem C8_create_order_failure_atomic_witness :
    (∃ e, createOrderRun dbW1 1 [⟨1, 99⟩] = (Except.error e, dbW1)) ∧
    lineFails dbW1 ⟨1, 99⟩ = true :=
  ⟨C8_create_order_failure_atomic dbW1 1 [⟨1, 99⟩] ⟨⟨1, 99⟩, by decide, by decide⟩,
   by decide⟩

/-- C7: `create_payment` preconditions and failure atomicity.  When the
order loaded for the caller is not PENDING, the call fails with the
InvalidTransition error 400 "Order is not in pending status" and persists
nothing; when the order is PENDING but the resolved adapter reports
failure, the adapter's error text is surfaced in the 400 detail and no
Payment row is persisted. -/
theorem C7_create_payment_preconditions (db : DB) (oid : Nat) (pname : String)
    (uid : Int) (pres : ProviderResult) (o : Order)
    (hlookup : OrderService.get_order_by_id db oid (some uid) = Except.ok o) :
    (o.status ≠ OrderStatus.pending →
      createPaymentRun db oid pname uid pres =
        (Except.error ⟨400, "Order is not in pending status"⟩, db)) ∧
    (o.status = OrderStatus.pending → registeredProviders.contains pname = true →
      pres.success = false →
      createPaymentRun db oid pname uid pres =
        (Except.error ⟨400, pres.error.getD "Payment creation failed"⟩, db)) := by
  constructor
  · intro hnp
    unfold createPaymentRun runRequest PaymentService.create_payment
    simp [Session.start, hlookup, hnp]
  · intro hp hreg hfail
    have hmem : pname ∈ registeredProviders := by simpa using hreg
    unfold createPaymentRun runRequest PaymentService.create_payment
    simp [Session.start, hlookup, hp, hmem, hfail]

/-- Witness for C7: on a paid order, `create_payment` is rejected with the
InvalidTransition error; on the pending order of `dbW1`, an adapter
failure with error text "boom" surfaces as the 400 detail, unchanged
state in both cases. -/
theorem C7_create_payment_preconditions_witness :
    createPaymentRun dbFailedPay 1 "stripe" 1 presSucceeded =
      (Except.error ⟨400, "Order is not in pending status"⟩, dbFailedPay) ∧
    createPaymentRun dbW1 1 "stripe" 1
        ⟨false, none, none, some "boom", none⟩ =
      (Except.error ⟨400, "boom"⟩, dbW1) :=
  ⟨(C7_create_payment_preconditions dbFailedPay 1 "stripe" 1 presSucceeded
      ⟨1, 1, 3000, OrderStatus.paid⟩ (by decide)).1 (by decide),
   (C7_create_payment_preconditions dbW1 1 "stripe" 1
      ⟨false, none, none, some "boom", none⟩ ordW1 (by decide)).2
      (by decide) (by decide) (by decide)⟩

/-! ## C4 -/

/-- The operations the claim ranges over: an order-paid event
(`OrderService.mark_order_as_paid`) or a direct `Product.reduce_stock`
call on one product. -/
inductive StockOp where
  | markPaid (order_id : Nat)
  | reduce (product_id : Nat) (quantity : Int)
deriving DecidableEq, Repr

/-- Apply one stock-touching operation to the committed state. -/
def applyStockOp (db : DB) : StockOp → DB
  | StockOp.markPaid oid => (markOrderAsPaidRun db oid).2
  | StockOp.reduce pid q => { db with products := reduceProductStock db.products pid q }

theorem reduce_stock_nonneg (p : Product) (q : Int) (h : 0 ≤ p.stock) :
    0 ≤ ((p.reduce_stock q).1).stock := by
  unfold Product.reduce_stock
  split
  · simp only
    omega
  · exact h

theorem reduceProductStock_nonneg (ps : List Product) (pid : Nat) (q : Int)
    (h : ∀ p ∈ ps, 0 ≤ p.stock) :
    ∀ p ∈ reduceProductStock ps pid q, 0 ≤ p.stock := by
  intro p hp
  unfold reduceProductStock at hp
  obtain ⟨x, hx, rfl⟩ := List.mem_map.mp hp
  split
  · exact reduce_stock_nonneg x q (h x hx)
  · exact h x hx

theorem foldl_reduce_nonneg (items : List OrderItem) (ps : List Product)
    (h : ∀ p ∈ ps, 0 ≤ p.stock) :
    ∀ p ∈ items.foldl (fun a i => reduceProductStock a i.product_id i.quantity) ps,
      0 ≤ p.stock := by
  induction items generalizing ps with
  | nil => simpa using h
  | cons i rest ih =>
    intro p hp
    rw [List.foldl_cons] at hp
    exact ih _ (reduceProductStock_nonneg _ _ _ h) p hp

theorem markOrderAsPaidRun_stock_nonneg (db : DB) (oid : Nat)
    (h : ∀ p ∈ db.products, 0 ≤ p.stock) :
    ∀ p ∈ (markOrderAsPaidRun db oid).2.products, 0 ≤ p.stock := by
  unfold markOrderAsPaidRun runRequest OrderService.mark_order_as_paid
  simp only [Session.start]
  cases hg : OrderService.get_order_by_id db oid none with
  | error e => simpa using h
  | ok order =>
    cases hnp : order.status != OrderStatus.pending with
    | true => simp only [hnp, if_true]; simpa using h
    | false =>
      simp only [hnp, Bool.false_eq_true, if_false, Session.commit,
        Order.mark_as_paid, DB.itemsOf]
      exact foldl_reduce_nonneg _ _ h

/-- C4: the stock non-negativity invariant holds.  Starting from any state
whose product stocks are all non-negative, any sequence of order-paid
operations (`mark_order_as_paid` runs and direct `reduce_stock` calls)
leaves every product's stock non-negative: the decrement is guarded by
`stock >= quantity` in the same step. -/
theorem C4_stock_nonneg_invariant (db : DB) (ops : List StockOp)
    (h : ∀ p ∈ db.products, 0 ≤ p.stock) :
    ∀ p ∈ (ops.foldl applyStockOp db).products, 0 ≤ p.stock := by
  induction ops generalizing db with
  | nil => simpa using h
  | cons op rest ih =>
    rw [List.foldl_cons]
    apply ih
    cases op with
    | markPaid oid => exact markOrderAsPaidRun_stock_nonneg db oid h
    | reduce pid q =>
      simp only [applyStockOp]
      exact reduceProductStock_nonneg _ _ _ h

/-- Witness for C4: after paying the order of `dbW1` (3 units off a stock
of 5) and then reducing 2 more directly, the remaining concrete stock 0 is
non-negative. -/
theorem C4_stock_nonneg_invariant_witness :
    0 ≤ (Product.mk 1 1000 0 ProductStatus.active).stock :=
  C4_stock_nonneg_invariant dbW1 [StockOp.markPaid 1, StockOp.reduce 1 2]
    (by decide) (Product.mk 1 1000 0 ProductStatus.active) (by decide)

/-! ## C5 -/

/-- A later live-price change on a product row (the mutation the snapshot
property quantifies over). -/
def DB.updateProductPrice (db : DB) (pid : Nat) (newPrice : Int) : DB :=
  { db with products := db.products.map (fun p =>
      if p.id == pid then { p with price := newPrice } else p) }

theorem buildItems_order_id (oid : Nat) (ds : List ItemData) :
    ∀ i ∈ (buildItems oid ds).1, i.order_id = oid := by
  induction ds with
  | nil => simp [buildItems]
  | cons d rest ih =>
    intro i hi
    rcases List.mem_cons.mp hi with h1 | h1
    · subst h1; rfl
    · exact ih i h1

theorem buildItems_subtotal (oid : Nat) (ds : List ItemData) :
    ∀ i ∈ (buildItems oid ds).1, i.subtotal = i.price * i.quantity := by
  induction ds with
  | nil => simp [buildItems]
  | cons d rest ih =>
    intro i hi
    rcases List.mem_cons.mp hi with h1 | h1
    · subst h1; rfl
    · exact ih i h1

theorem buildItems_total (oid : Nat) (ds : List ItemData) :
    (buildItems oid ds).2 = (((buildItems oid ds).1).map (fun i => i.subtotal)).sum := by
  induction ds with
  | nil => simp [buildItems]
  | cons d rest ih => simp [buildItems, ih]

theorem buildItems_price_from (oid : Nat) (ds : List ItemData) :
    ∀ i ∈ (buildItems oid ds).1,
      ∃ d ∈ ds, i.price = d.price ∧ i.product_id = d.product_id := by
  induction ds with
  | nil => simp [buildItems]
  | cons d rest ih =>
    intro i hi
    rcases List.mem_cons.mp hi with h1 | h1
    · exact ⟨d, List.mem_cons_self d rest, by subst h1; exact ⟨rfl, rfl⟩⟩
    · obtain ⟨d2, hd2, hp⟩ := ih i h1
      exact ⟨d2, List.mem_cons_of_mem d hd2, hp⟩

theorem validateItems_snapshot (db : DB) (reqs : List OrderItemCreate)
    (ds : List ItemData) (h : validateItems db reqs = Except.ok ds) :
    ∀ d ∈ ds, ∃ p, db.products.find? (fun q => q.id == d.product_id) = some p ∧
      d.price = p.price := by
  induction reqs generalizing ds with
  | nil =>
    unfold validateItems at h
    cases h
    simp
  | cons a rest ih =>
    unfold validateItems at h
    cases hf : db.products.find? (fun p => p.id == a.product_id) with
    | none => rw [hf] at h; cases h
    | some p =>
      rw [hf] at h
      cases hstock : p.is_in_stock a.quantity with
      | false => simp [hstock] at h
      | true =>
        simp only [hstock, Bool.not_true, Bool.false_eq_true, if_false] at h
        cases hv : validateItems db rest with
        | error e => rw [hv] at h; cases h
        | ok ds2 =>
          rw [hv] at h
          cases h
          intro d hd
          rcases List.mem_cons.mp hd with h1 | h1
          · subst h1
            exact ⟨p, hf, rfl⟩
          · exact ih ds2 hv d h1

/-- C5: order total correctness.  Any order returned by `create_order` is
PENDING; its `total_amount` equals the sum of `price * quantity` over its
persisted items; each item's `subtotal` is `price * quantity`; each item's
price is the snapshot of the product's price at creation time; and a later
live-price change on any product alters neither the order rows nor the
item rows (the snapshot is immutable). -/
theorem C5_order_total_correct (db : DB) (uid : Int) (reqs : List OrderItemCreate)
    (o : Order) (db2 : DB)
    (hfresh : ∀ i ∈ db.order_items, i.order_id ≠ db.next_order_id)
    (h : createOrderRun db uid reqs = (Except.ok o, db2)) :
    o.status = OrderStatus.pending ∧
    o.total_amount = ((db2.itemsOf o.id).map (fun i => i.price * i.quantity)).sum ∧
    (∀ i ∈ db2.itemsOf o.id, i.subtotal = i.price * i.quantity) ∧
    (∀ i ∈ db2.itemsOf o.id,
      ∃ p, db.products.find? (fun q => q.id == i.product_id) = some p ∧
        i.price = p.price) ∧
    (∀ pid newPrice, (db2.updateProductPrice pid newPrice).orders = db2.orders ∧
        (db2.updateProductPrice pid newPrice).order_items = db2.order_items) := by
  unfold createOrderRun runRequest OrderService.create_order at h
  simp only [Session.start] at h
  cases hv : validateItems db reqs with
  | error e => rw [hv] at h; simp at h
  | ok ds =>
    rw [hv] at h
    simp only [Session.commit, Prod.mk.injEq, Except.ok.injEq] at h
    obtain ⟨ho, hdb⟩ := h
    subst ho
    subst hdb
    have hfilter : ∀ oid2, oid2 = db.next_order_id →
        (List.filter (fun i => i.order_id == oid2)
          (db.order_items ++ (buildItems db.next_order_id ds).1)) =
          (buildItems db.next_order_id ds).1 := by
      intro oid2 hoid
      subst hoid
      rw [List.filter_append]
      have e1 : db.order_items.filter (fun i => i.order_id == db.next_order_id) = [] := by
        rw [List.filter_eq_nil_iff]
        intro i hi
        simpa using hfresh i hi
      have e2 : (buildItems db.next_order_id ds).1.filter
          (fun i => i.order_id == db.next_order_id) =
          (buildItems db.next_order_id ds).1 := by
        rw [List.filter_eq_self]
        intro i hi
        simpa using buildItems_order_id db.next_order_id ds i hi
      rw [e1, e2]
      rfl
    refine ⟨rfl, ?_, ?_, ?_, ?_⟩
    · show (buildItems db.next_order_id ds).2 = _
      rw [buildItems_total db.next_order_id ds]
      have hmap : (buildItems db.next_order_id ds).1.map (fun i => i.subtotal) =
          (buildItems db.next_order_id ds).1.map (fun i => i.price * i.quantity) :=
        List.map_congr_left (buildItems_subtotal db.next_order_id ds)
      rw [hmap]
      show _ = ((DB.itemsOf _ _).map _).sum
      rw [DB.itemsOf]
      rw [hfilter _ rfl]
    · intro i hi
      rw [DB.itemsOf] at hi
      rw [hfilter _ rfl] at hi
      exact buildItems_subtotal db.next_order_id ds i hi
    · intro i hi
      rw [DB.itemsOf] at hi
      rw [hfilter _ rfl] at hi
      obtain ⟨d, hd, hprice, hpid⟩ := buildItems_price_from db.next_order_id ds i hi
      obtain ⟨p, hp, hdp⟩ := validateItems_snapshot db reqs ds hv d hd
      refine ⟨p, ?_, by rw [hprice, hdp]⟩
      rw [hpid]
      exact hp
    · intro pid newPrice
      exact ⟨rfl, rfl⟩

/-- Scenario A input: two active products at $10.00 and $5.00. -/
def dbScenA : DB :=
  ⟨[⟨1, 1000, 10, ProductStatus.active⟩, ⟨2, 500, 10, ProductStatus.active⟩],
   [], [], [], 1, 1⟩

/-- Scenario A output order: total $35.00, PENDING. -/
def ordScenA : Order := ⟨1, 7, 3500, OrderStatus.pending⟩

/-- Scenario A output state. -/
def dbScenA2 : DB :=
  ⟨[⟨1, 1000, 10, ProductStatus.active⟩, ⟨2, 500, 10, ProductStatus.active⟩],
   [ordScenA], [⟨1, 1, 3, 1000, 3000⟩, ⟨1, 2, 1, 500, 500⟩], [], 2, 1⟩

/-- Witness for C5, Scenario A: ordering qty 3 at $10.00 and qty 1 at
$5.00 yields total $35.00 (3500 cents) and status PENDING, equal to the
sum of price times quantity over the persisted items. -/
theorem C5_order_total_correct_witness :
    (createOrderRun dbScenA 7 [⟨1, 3⟩, ⟨2, 1⟩]).1 = Except.ok ordScenA ∧
    ordScenA.total_amount = 3500 ∧
    ordScenA.status = OrderStatus.pending ∧
    ordScenA.total_amount =
      ((dbScenA2.itemsOf 1).map (fun i => i.price * i.quantity)).sum :=
  ⟨by decide, by decide,
   (C5_order_total_correct dbScenA 7 [⟨1, 3⟩, ⟨2, 1⟩] ordScenA dbScenA2
      (by decide) (by decide)).1,
   (C5_order_total_correct dbScenA 7 [⟨1, 3⟩, ⟨2, 1⟩] ordScenA dbScenA2
      (by decide) (by decide)).2.1⟩

/-! ## C2 amended -/

theorem find?_updatePayment (l : List Payment) (pid : Nat) (f : Payment → Payment)
    (hf : ∀ q, (f q).id = q.id) :
    (l.map (fun q => if q.id == pid then f q else q)).find? (fun q => q.id == pid) =
      (l.find? (fun q => q.id == pid)).map f := by
  induction l with
  | nil => rfl
  | cons a rest ih =>
    cases ha : a.id == pid with
    | true =>
      rw [List.map_cons, List.find?_cons, List.find?_cons, if_pos ha, hf a, ha]
      rfl
    | false =>
      rw [List.map_cons, List.find?_cons, List.find?_cons,
        if_neg (by simp [ha]), ha]
      exact ih

theorem mark_order_as_paid_work_payments (s : Session) (oid : Nat) :
    (OrderService.mark_order_as_paid s oid).2.work.payments = s.work.payments := by
  unfold OrderService.mark_order_as_paid
  cases hg : OrderService.get_order_by_id s.work oid none with
  | error e => rfl
  | ok order =>
    cases hnp : order.status != OrderStatus.pending with
    | true => simp [hnp]
    | false => simp [hnp, Session.commit, Order.mark_as_paid]

theorem mark_order_as_paid_error_session (s : Session) (oid : Nat) (e : HTTPError)
    (h : (OrderService.mark_order_as_paid s oid).1 = Except.error e) :
    (OrderService.mark_order_as_paid s oid).2 = s := by
  unfold OrderService.mark_order_as_paid at h ⊢
  cases hg : OrderService.get_order_by_id s.work oid none with
  | error e2 => rfl
  | ok order =>
    rw [hg] at h
    dsimp only at h ⊢
    cases hnp : order.status != OrderStatus.pending with
    | true => simp
    | false => rw [hnp] at h; simp at h

/-- C2 (amended): re-applying the same terminal status to an
already-terminal Payment never changes its stored status — via
`query_payment` (a no-op returning the stored row), via `confirm_payment`
(both for a repeated `succeeded` and for a repeated failure-mapped
status), and via `handle_webhook` (repeated `success` or `failed`).
The original claim's second half — that a *different* terminal status is
rejected or ignored — is false (see the counterexample). -/
theorem C2_same_terminal_status_preserved (db : DB) (pid : Nat) (p : Payment)
    (pres : ProviderResult) (pname t : String) (w : ProviderResult) :
    (db.payments.find? (fun q => q.id == pid) = some p →
     registeredProviders.contains p.provider = true →
     (((pres.status = some "succeeded" ∧ p.status = PaymentStatus.success) ∨
       (pres.status = some "failed" ∧ p.status = PaymentStatus.failed)) →
        queryPaymentRun db pid pres = (Except.ok p, db)) ∧
     (pres.success = true → pres.status = some "succeeded" →
      p.status = PaymentStatus.success →
        paymentStatusIn (confirmPaymentRun db pid pres).2 pid =
          some PaymentStatus.success) ∧
     (pres.success = true → pres.status ≠ some "succeeded" →
      pres.status ≠ some "requires_payment_method" →
      pres.status ≠ some "requires_action" →
      pres.status ≠ some "processing" →
      p.status = PaymentStatus.failed →
        paymentStatusIn (confirmPaymentRun db pid pres).2 pid =
          some PaymentStatus.failed)) ∧
    (registeredProviders.contains pname = true →
     w.success = true → w.transaction_id = some t → (t == "") = false →
     db.payments.find? (fun q => q.transaction_id == t) = some p →
     db.payments.find? (fun q => q.id == p.id) = some p →
     (w.status = some "success" → p.status = PaymentStatus.success →
        paymentStatusIn (handleWebhookRun db pname w).2 p.id =
          some PaymentStatus.success) ∧
     (w.status = some "failed" → p.status = PaymentStatus.failed →
        paymentStatusIn (handleWebhookRun db pname w).2 p.id =
          some PaymentStatus.failed)) := by
  constructor
  · intro hfound hreg
    have hmem : p.provider ∈ registeredProviders := by simpa using hreg
    refine ⟨?_, ?_, ?_⟩
    · intro hcase
      unfold queryPaymentRun runRequest PaymentService.query_payment
      simp only [Session.start]
      rw [hfound]
      rcases hcase with ⟨h1, h2⟩ | ⟨h1, h2⟩
      · have g1 : (pres.status == some "failed") = false := by simp [h1]
        simp [hmem, h1, h2, g1]
      · have g1 : (pres.status == some "succeeded") = false := by simp [h1]
        simp [hmem, h1, h2, g1]
    · intro hs hst hp
      set S : Session :=
        ⟨db.updatePayment pid
          (fun q => { q.mark_as_success with raw_response := pres.raw_response }), db⟩
        with hS
      rcases hM : OrderService.mark_order_as_paid S p.order_id with ⟨r, s1⟩
      unfold confirmPaymentRun runRequest PaymentService.confirm_payment
      simp only [Session.start]
      rw [hfound]
      simp only [hmem, hreg, hs, hst, Bool.not_true, Bool.false_eq_true, if_false,
        Bool.not_false, if_true, beq_self_eq_true, eq_self_iff_true]
      rw [← hS, hM]
      cases r with
      | error e =>
        have hses : (OrderService.mark_order_as_paid S p.order_id).2 = S :=
          mark_order_as_paid_error_session S p.order_id e (by rw [hM])
        rw [hM] at hses
        dsimp only at hses ⊢
        rw [hses, hS]
        unfold paymentStatusIn
        rw [hfound]
        simp [hp]
      | ok a =>
        dsimp only
        have hw : s1.work.payments = S.work.payments := by
          have h2 := mark_order_as_paid_work_payments S p.order_id
          rw [hM] at h2
          exact h2
        have h3 : S.work.payments.find? (fun q => q.id == pid) =
            (db.payments.find? (fun q => q.id == pid)).map
              (fun q => { q.mark_as_success with raw_response := pres.raw_response }) :=
          find?_updatePayment db.payments pid
            (fun q => { q.mark_as_success with raw_response := pres.raw_response })
            (fun q => rfl)
        unfold paymentStatusIn
        dsimp only [Session.commit]
        rw [hw, h3, hfound]
        rfl
    · intro hs hne1 hne2 hne3 hne4 hp
      have g1 : (pres.status == some "succeeded") = false := by simp [hne1]
      have g2 : (pres.status == some "requires_payment_method") = false := by simp [hne2]
      have g3 : (pres.status == some "requires_action") = false := by simp [hne3]
      have g4 : (pres.status == some "processing") = false := by simp [hne4]
      unfold confirmPaymentRun runRequest PaymentService.confirm_payment
      simp only [Session.start]
      rw [hfound]
      simp only [hmem, hreg, hs, g1, g2, g3, g4, Bool.not_true, Bool.false_eq_true,
        if_false, Bool.not_false, if_true, Bool.or_false, Bool.false_or]
      have h3 : (db.updatePayment pid Payment.mark_as_failed).payments.find?
          (fun q => q.id == pid) =
          (db.payments.find? (fun q => q.id == pid)).map Payment.mark_as_failed :=
        find?_updatePayment db.payments pid Payment.mark_as_failed (fun q => rfl)
      unfold paymentStatusIn
      dsimp only [Session.commit]
      rw [h3, hfound]
      rfl
  · intro hregP hs ht ht0 hfindt hfindid
    have hmemP : pname ∈ registeredProviders := by simpa using hregP
    constructor
    · intro hw1 hp
      set S : Session :=
        ⟨db.updatePayment p.id
          (fun q => { q.mark_as_success with raw_response := w.raw_response }), db⟩
        with hS
      rcases hM : OrderService.mark_order_as_paid S p.order_id with ⟨r, s1⟩
      unfold handleWebhookRun runRequest PaymentService.handle_webhook
      simp only [Session.start]
      rw [ht]
      dsimp only
      rw [hfindt]
      simp only [hmemP, hregP, hs, ht0, hw1, Bool.not_true, Bool.false_eq_true,
        if_false, Bool.not_false, if_true, beq_self_eq_true, eq_self_iff_true]
      rw [← hS, hM]
      cases r with
      | error e =>
        have hses : (OrderService.mark_order_as_paid S p.order_id).2 = S :=
          mark_order_as_paid_error_session S p.order_id e (by rw [hM])
        rw [hM] at hses
        dsimp only at hses ⊢
        rw [hses, hS]
        unfold paymentStatusIn
        rw [hfindid]
        simp [hp]
      | ok a =>
        dsimp only
        have hw2 : s1.work.payments = S.work.payments := by
          have h2 := mark_order_as_paid_work_payments S p.order_id
          rw [hM] at h2
          exact h2
        have h3 : S.work.payments.find? (fun q => q.id == p.id) =
            (db.payments.find? (fun q => q.id == p.id)).map
              (fun q => { q.mark_as_success with raw_response := w.raw_response }) :=
          find?_updatePayment db.payments p.id
            (fun q => { q.mark_as_success with raw_response := w.raw_response })
            (fun q => rfl)
        unfold paymentStatusIn
        dsimp only [Session.commit]
        rw [hw2, h3, hfindid]
        rfl
    · intro hw1 hp
      have g1 : ((some "failed" : Option String) == some "success") = false := by decide
      unfold handleWebhookRun runRequest PaymentService.handle_webhook
      simp only [Session.start]
      rw [ht]
      dsimp only
      rw [hfindt]
      simp only [hmemP, hregP, hs, ht0, hw1, g1, Bool.not_true, Bool.false_eq_true,
        if_false, Bool.not_false, if_true, beq_self_eq_true, eq_self_iff_true]
      have h3 : (db.updatePayment p.id
            (fun q => { q.mark_as_failed with raw_response := w.raw_response })).payments.find?
          (fun q => q.id == p.id) =
          (db.payments.find? (fun q => q.id == p.id)).map
            (fun q => { q.mark_as_failed with raw_response := w.raw_response }) :=
        find?_updatePayment db.payments p.id
          (fun q => { q.mark_as_failed with raw_response := w.raw_response })
          (fun q => rfl)
      unfold paymentStatusIn
      dsimp only [Session.commit]
      rw [h3, hfindid]
      rfl

/-- A SUCCESS stripe payment on a paid order. -/
def dbSuccPay : DB :=
  ⟨[], [⟨1, 1, 3000, OrderStatus.paid⟩], [],
   [⟨1, 1, "stripe", "S1", PaymentStatus.success, some "q"⟩], 2, 2⟩

/-- Witness for the amended C2: re-querying a SUCCESS payment with an
adapter snapshot again reporting `succeeded` returns the stored row and
leaves the state untouched. -/
theorem C2_same_terminal_status_preserved_witness :
    queryPaymentRun dbSuccPay 1 presSucceeded =
      (Except.ok ⟨1, 1, "stripe", "S1", PaymentStatus.success, some "q"⟩, dbSuccPay) :=
  (((C2_same_terminal_status_preserved dbSuccPay 1
      ⟨1, 1, "stripe", "S1", PaymentStatus.success, some "q"⟩ presSucceeded
      "stripe" "S1" presSucceeded).1 (by decide) (by decide)).1)
    (Or.inl ⟨rfl, rfl⟩)

/-! ## C1 amended -/

/-- `n`-fold delivery of the same webhook payload, threading the committed
state. -/
def webhookIter (pname : String) (w : ProviderResult) : DB → Nat → DB
  | db, 0 => db
  | db, n + 1 => webhookIter pname w (handleWebhookRun db pname w).2 n

/-- C1 (amended): webhook redelivery is idempotent on state but not
failure-free.  In any committed state reached after a success webhook has
been fully applied (the matching payment is SUCCESS and carries the
webhook's raw response, the order is no longer PENDING), re-delivering the
identical payload returns HTTP 400 ("Order is not in pending status")
instead of succeeding, and leaves the committed state exactly unchanged;
hence N deliveries produce the same Payment status, Order status and
product stock as one delivery, with stock decremented exactly once by the
first. -/
theorem C1_webhook_redelivery_state_noop (db : DB) (pname t : String)
    (w : ProviderResult) (p : Payment) (o : Order)
    (hreg : registeredProviders.contains pname = true)
    (hs : w.success = true) (ht : w.transaction_id = some t) (ht0 : (t == "") = false)
    (hst : w.status = some "success")
    (hfind : db.payments.find? (fun q => q.transaction_id == t) = some p)
    (hsame : ∀ q ∈ db.payments, (q.id == p.id) = true →
        q.status = PaymentStatus.success ∧ q.raw_response = w.raw_response)
    (hord : OrderService.get_order_by_id db p.order_id none = Except.ok o)
    (hop : o.status ≠ OrderStatus.pending) :
    handleWebhookRun db pname w =
      (Except.error ⟨400, "Order is not in pending status"⟩, db) ∧
    ∀ n, webhookIter pname w db n = db := by
  have hmem : pname ∈ registeredProviders := by simpa using hreg
  have hwork : db.updatePayment p.id
      (fun q => { q.mark_as_success with raw_response := w.raw_response }) = db := by
    unfold DB.updatePayment
    have hmap : db.payments.map (fun q => if q.id == p.id then
        { q.mark_as_success with raw_response := w.raw_response } else q) =
        db.payments.map (fun q => q) := by
      apply List.map_congr_left
      intro q hq
      cases hqid : q.id == p.id with
      | true =>
        obtain ⟨h1, h2⟩ := hsame q hq hqid
        rw [if_pos rfl]
        cases q with
        | mk qid qoid qprov qtx qst qraw =>
          simp only [Payment.mark_as_success] at h1 h2 ⊢
          simp [h1, h2]
      | false => rw [if_neg (by simp)]
    rw [hmap, List.map_id']
  have hmark : OrderService.mark_order_as_paid ⟨db, db⟩ p.order_id =
      (Except.error ⟨400, "Order is not in pending status"⟩, ⟨db, db⟩) := by
    unfold OrderService.mark_order_as_paid
    have hbne : (o.status != OrderStatus.pending) = true := by simp [hop]
    dsimp only
    rw [hord]
    dsimp only
    rw [hbne]
    simp
  have hrun : handleWebhookRun db pname w =
      (Except.error ⟨400, "Order is not in pending status"⟩, db) := by
    set S : Session := ⟨db.updatePayment p.id
        (fun q => { q.mark_as_success with raw_response := w.raw_response }), db⟩
      with hS
    have hSdb : S = (⟨db, db⟩ : Session) := by rw [hS, hwork]
    unfold handleWebhookRun runRequest PaymentService.handle_webhook
    simp only [Session.start]
    rw [ht]
    dsimp only
    rw [hfind]
    simp only [hmem, hreg, hs, ht0, hst, beq_self_eq_true, eq_self_iff_true,
      if_true, Bool.not_true, Bool.false_eq_true, if_false]
    rw [← hS, hSdb, hmark]
  refine ⟨hrun, ?_⟩
  intro n
  induction n with
  | zero => rfl
  | succ n ih =>
    show webhookIter pname w (handleWebhookRun db pname w).2 n = db
    rw [congrArg Prod.snd hrun]
    exact ih

/-- Witness for the amended C1: the first delivery on `dbW1` succeeds and
decrements stock from 5 to 2, marks the order PAID and the payment
SUCCESS; re-delivering the identical payload on the resulting state
returns HTTP 400 with the state exactly unchanged, and three further
deliveries still leave the state unchanged. -/
theorem C1_webhook_redelivery_state_noop_witness :
    (handleWebhookRun dbW1 "bkash" whSuccessT1).1 = Except.ok whSuccessT1 ∧
    productStockIn dbW1After 1 = some 2 ∧
    orderStatusIn dbW1After 1 = some OrderStatus.paid ∧
    paymentStatusIn dbW1After 1 = some PaymentStatus.success ∧
    handleWebhookRun dbW1After "bkash" whSuccessT1 =
      (Except.error ⟨400, "Order is not in pending status"⟩, dbW1After) ∧
    webhookIter "bkash" whSuccessT1 dbW1After 3 = dbW1After :=
  ⟨by decide, by decide, by decide, by decide,
   (C1_webhook_redelivery_state_noop dbW1After "bkash" "T1" whSuccessT1
      ⟨1, 1, "bkash", "T1", PaymentStatus.success, some "r"⟩
      ⟨1, 1, 3000, OrderStatus.paid⟩
      (by decide) (by decide) (by decide) (by decide) (by decide) (by decide)
      (by decide) (by decide) (by decide)).1,
   (C1_webhook_redelivery_state_noop dbW1After "bkash" "T1" whSuccessT1
      ⟨1, 1, "bkash", "T1", PaymentStatus.success, some "r"⟩
      ⟨1, 1, 3000, OrderStatus.paid⟩
      (by decide) (by decide) (by decide) (by decide) (by decide) (by decide)
      (by decide) (by decide) (by decide)).2 3⟩
